import Mathlib

/-!
Shallow embedding of the streaming TTS session logic of this repository:
`ResembleTTSService.run_tts` / `ResembleTTSService.stop`
(src/pipecat_resemble/resemble_pipecat_tts.py) and the receive loop of the
standalone client `listen` (src/tts-websocket/tts-websocket.py).

The asynchronous generator `run_tts` is modelled as a pure function from the
service state, the input text and a *script* (the results that the websocket
transport returns for `connect`, `send` and each successive `recv`) to the
list of yielded frames, the audio bytes written to the playback stream, the
requests transmitted, the connections opened, the final service state and a
flag recording whether the generator ran to completion (so that its `finally`
block executed).  External collaborators (metrics hooks, the pipeline
framework) are no-ops with no observable effect and are not modelled; the
playback write inside the loop is modelled as always succeeding and is
recorded in the output.
-/

/-- Value of one character of the standard base64 alphabet, `none` for any
other character. -/
def b64charVal (c : Char) : Option Nat :=
  if 'A' ≤ c ∧ c ≤ 'Z' then some (c.toNat - 'A'.toNat)
  else if 'a' ≤ c ∧ c ≤ 'z' then some (c.toNat - 'a'.toNat + 26)
  else if '0' ≤ c ∧ c ≤ '9' then some (c.toNat - '0'.toNat + 52)
  else if c = '+' then some 62
  else if c = '/' then some 63
  else none

/-- Decode a base64 character sequence, four characters at a time, with
`=` padding allowed only at the end.  Returns the decoded bytes (as numbers
below 256), or `none` where CPython's `base64.b64decode` raises
`binascii.Error`. -/
def b64decodeQuads : List Char → Option (List Nat)
  | [] => some []
  | a :: b :: c :: d :: rest => do
      let va ← b64charVal a
      let vb ← b64charVal b
      if c = '=' then
        if d = '=' ∧ rest = [] then some [va * 4 + vb / 16] else none
      else do
        let vc ← b64charVal c
        if d = '=' then
          if rest = [] then some [va * 4 + vb / 16, vb % 16 * 16 + vc / 4]
          else none
        else do
          let vd ← b64charVal d
          let tail ← b64decodeQuads rest
          some ((va * 4 + vb / 16) :: (vb % 16 * 16 + vc / 4) ::
                (vc % 4 * 64 + vd) :: tail)
  | _ => none

/-- Model of Python's `base64.b64decode` on a text payload: decode the
string's characters as standard base64. -/
def b64decode (s : String) : Option (List Nat) :=
  b64decodeQuads s.data

/-- Audio configuration constant `SAMPLE_RATE` of
src/pipecat_resemble/resemble_pipecat_tts.py. -/
def SAMPLE_RATE : Nat := 48000

/-- The pipeline frames yielded by `run_tts` (the constructors of interest of
pipecat's frame types, with the fields `run_tts` fills in). -/
inductive Frame where
  | TTSStartedFrame : Frame
  | TTSAudioRawFrame (audio : List Nat) (sample_rate : Nat) (num_channels : Nat) : Frame
  | TTSStoppedFrame : Frame
  | ErrorFrame (error : String) : Frame
  deriving DecidableEq, BEq

/-- A frame is terminal when it is `TTSStoppedFrame` or an `ErrorFrame`. -/
def Frame.isTerminal : Frame → Bool
  | .TTSStoppedFrame => true
  | .ErrorFrame _ => true
  | _ => false

/-- A frame is an audio chunk carrying sample rate 48000 and one channel. -/
def Frame.isChunk48k1 : Frame → Bool
  | .TTSAudioRawFrame _ sr ch => sr == 48000 && ch == 1
  | _ => false

/-- A parsed inbound JSON message.  `request_id` is `data.get("request_id")`
(`none` when the field is absent or not an integer); `ty` is the `"type"`
field (`none` when absent, so that `data["type"]` raises `KeyError`);
`audio_content` and `message` are the corresponding optional fields. -/
structure InboundMsg where
  request_id : Option Int
  ty : Option String
  audio_content : Option String
  message : Option String
  deriving DecidableEq

/-- The result of one `await websocket.recv()` together with the subsequent
`json.loads`: a successfully parsed message, a `json.loads` failure with the
exception's text, a `websockets.ConnectionClosed` raised by `recv`, or any
other exception with its text. -/
inductive RecvResult where
  | msg (m : InboundMsg) : RecvResult
  | badJson (desc : String) : RecvResult
  | connectionClosed : RecvResult
  | otherError (desc : String) : RecvResult
  deriving DecidableEq

/-- The result of `websockets.connect`: a new connection (identified by a
token) or an exception with its text. -/
inductive ConnectResult where
  | ok (conn : Nat) : ConnectResult
  | error (desc : String) : ConnectResult
  deriving DecidableEq

/-- The result of `websocket.send`: success, `ConnectionClosed`, or another
exception with its text. -/
inductive SendResult where
  | ok : SendResult
  | connectionClosed : SendResult
  | error (desc : String) : SendResult
  deriving DecidableEq

/-- A transport script: what the websocket layer does on this invocation. -/
structure Script where
  connect : ConnectResult
  send : SendResult
  recvs : List RecvResult
  deriving DecidableEq

/-- The script establishes the connection and the send succeeds. -/
def Script.connSendOk (sc : Script) : Bool :=
  (match sc.connect with | .ok _ => true | .error _ => false) &&
  (match sc.send with | .ok => true | _ => false)

/-- Optional input parameters of `ResembleTTSService.InputParams` (speed and
pitch are floats in the source, modelled as rationals). -/
structure InputParams where
  speed : Option ℚ := none
  pitch : Option ℚ := none
  no_audio_header : Bool := true
  deriving DecidableEq

/-- An open websocket connection object: its token and whether `close` has
been called on it. -/
structure WebSocketConn where
  id : Nat
  closed : Bool
  deriving DecidableEq

/-- The pyaudio output stream opened in `__init__`.  Mirrors pyaudio's
semantics: operations on a closed stream raise `IOError("Stream closed")`. -/
structure AudioStream where
  stopped : Bool := false
  closed : Bool := false
  deriving DecidableEq

/-- Model of pyaudio `Stream.stop_stream`: raises once the stream is closed. -/
def AudioStream.stop_stream (s : AudioStream) : Except String AudioStream :=
  if s.closed then .error "Stream closed" else .ok { s with stopped := true }

/-- Model of pyaudio `Stream.close`. -/
def AudioStream.close (s : AudioStream) : Except String AudioStream :=
  if s.closed then .error "Stream closed" else .ok { s with closed := true }

/-- The process-wide pyaudio handle created in `__init__`. -/
structure PyAudioHandle where
  terminated : Bool := false
  deriving DecidableEq

/-- The mutable attributes of a `ResembleTTSService` instance, together with
its configuration. -/
structure ServiceState where
  api_key : String
  voice_uuid : String
  project_uuid : String
  params : InputParams
  websocket : Option WebSocketConn
  request_id : Int
  stream : AudioStream
  pyaudio : PyAudioHandle
  deriving DecidableEq

/-- The outbound synthesis request dictionary built by `run_tts`.  `speed` and
`pitch` are `none` exactly when the corresponding key is absent from the
dictionary. -/
structure SynthesisRequest where
  voice_uuid : String
  project_uuid : String
  data : String
  sample_rate : Nat
  precision : String
  no_audio_header : Bool
  request_id : Int
  binary_response : Bool
  speed : Option ℚ
  pitch : Option ℚ
  deriving DecidableEq

/-- The request dictionary of `run_tts` lines 82–97, for active request id
`rid`. -/
def buildRequest (st : ServiceState) (text : String) (rid : Int) : SynthesisRequest :=
  { voice_uuid := st.voice_uuid
    project_uuid := st.project_uuid
    data := text
    sample_rate := SAMPLE_RATE
    precision := "PCM_16"
    no_audio_header := st.params.no_audio_header
    request_id := rid
    binary_response := false
    speed := st.params.speed
    pitch := st.params.pitch }

/-- How the receive loop of `run_tts` ended: `brk` for a `break` (the
`audio_end` and `error` branches), `exn` for an exception propagating out of
the loop body, `pending` when the script is exhausted while the loop is still
awaiting the next message. -/
inductive LoopExit where
  | brk : LoopExit
  | exnConnClosed : LoopExit
  | exnOther (desc : String) : LoopExit
  | pending : LoopExit
  deriving DecidableEq

/-- Output of the receive loop: frames yielded inside the loop, audio byte
strings written to the playback stream, and how the loop ended. -/
structure LoopOut where
  frames : List Frame
  writes : List (List Nat)
  exit : LoopExit
  deriving DecidableEq

/-- The receive loop of `run_tts` (lines 103–123) with active request id
`rid`, run against the scripted `recv` results.  A message whose
`request_id` differs from `rid` is discarded (`continue`); an `audio`
message is base64-decoded, written to the playback stream and yielded as a
`TTSAudioRawFrame`; `audio_end` yields `TTSStoppedFrame` and breaks; `error`
yields an `ErrorFrame` with the `"API Error: "` prefix and breaks; any other
type falls through all branches and the loop continues.  A missing `"type"`
or `"audio_content"` key (`KeyError`), a `json.loads` failure or a base64
failure is an exception escaping the loop body. -/
def runLoop (rid : Int) : List RecvResult → LoopOut
  | [] => { frames := [], writes := [], exit := .pending }
  | .badJson d :: _ => { frames := [], writes := [], exit := .exnOther d }
  | .connectionClosed :: _ => { frames := [], writes := [], exit := .exnConnClosed }
  | .otherError d :: _ => { frames := [], writes := [], exit := .exnOther d }
  | .msg m :: rest =>
      if m.request_id ≠ some rid then runLoop rid rest
      else
        match m.ty with
        | none =>
            { frames := [], writes := [], exit := .exnOther "KeyError: 'type'" }
        | some t =>
            if t = "audio" then
              match m.audio_content with
              | none =>
                  { frames := [], writes := [],
                    exit := .exnOther "KeyError: 'audio_content'" }
              | some content =>
                  match b64decode content with
                  | none =>
                      { frames := [], writes := [],
                        exit := .exnOther "Invalid base64-encoded string" }
                  | some audio =>
                      let o := runLoop rid rest
                      { frames := Frame.TTSAudioRawFrame audio SAMPLE_RATE 1 :: o.frames
                        writes := audio :: o.writes
                        exit := o.exit }
            else if t = "audio_end" then
              { frames := [Frame.TTSStoppedFrame], writes := [], exit := .brk }
            else if t = "error" then
              { frames := [Frame.ErrorFrame
                  ("API Error: " ++ m.message.getD "Unknown error")]
                writes := [], exit := .brk }
            else runLoop rid rest

/-- Everything observable about one `run_tts` invocation. -/
structure RunOutput where
  frames : List Frame
  writes : List (List Nat)
  sent : List SynthesisRequest
  opened : List Nat
  state : ServiceState
  ended : Bool
  deriving DecidableEq

/-- Model of `ResembleTTSService.run_tts` (lines 66–131).  The whole body is
wrapped in `try`/`except websockets.ConnectionClosed`/`except Exception`
with a `finally` that sets `self._request_id = 0`; the `finally` runs
exactly when the generator runs to completion (`ended = true`).  On a
successful connect, a new connection is opened unconditionally and stored,
the request id is incremented, the request dictionary is sent, then
`TTSStartedFrame` is yielded and the receive loop runs. -/
def run_tts (st : ServiceState) (text : String) (sc : Script) : RunOutput :=
  match sc.connect with
  | .error d =>
      -- `websockets.connect` raised: caught by `except Exception`;
      -- `self._websocket` was never assigned.
      { frames := [Frame.ErrorFrame d], writes := [], sent := [], opened := []
        state := { st with request_id := 0 }, ended := true }
  | .ok conn =>
      let st1 : ServiceState := { st with websocket := some ⟨conn, false⟩ }
      let rid : Int := st1.request_id + 1
      let st2 : ServiceState := { st1 with request_id := rid }
      let req := buildRequest st text rid
      match sc.send with
      | .connectionClosed =>
          { frames := [Frame.ErrorFrame "Connection closed unexpectedly"]
            writes := [], sent := [], opened := [conn]
            state := { st2 with request_id := 0 }, ended := true }
      | .error d =>
          { frames := [Frame.ErrorFrame d], writes := [], sent := []
            opened := [conn], state := { st2 with request_id := 0 }, ended := true }
      | .ok =>
          let o := runLoop rid sc.recvs
          match o.exit with
          | .brk =>
              { frames := Frame.TTSStartedFrame :: o.frames, writes := o.writes
                sent := [req], opened := [conn]
                state := { st2 with request_id := 0 }, ended := true }
          | .exnConnClosed =>
              { frames := Frame.TTSStartedFrame ::
                  (o.frames ++ [Frame.ErrorFrame "Connection closed unexpectedly"])
                writes := o.writes, sent := [req], opened := [conn]
                state := { st2 with request_id := 0 }, ended := true }
          | .exnOther d =>
              { frames := Frame.TTSStartedFrame :: (o.frames ++ [Frame.ErrorFrame d])
                writes := o.writes, sent := [req], opened := [conn]
                state := { st2 with request_id := 0 }, ended := true }
          | .pending =>
              { frames := Frame.TTSStartedFrame :: o.frames, writes := o.writes
                sent := [req], opened := [conn], state := st2, ended := false }

/-- Model of `ResembleTTSService.stop` (lines 133–143).  `self._websocket`,
`self._stream` and `self._pyaudio` always exist after `__init__`, so the
`hasattr` guards are always true; websockets' `close` is idempotent and
never raises, but pyaudio's `stop_stream` raises `IOError("Stream closed")`
once the stream has been closed, so the whole call raises there on a second
invocation. -/
def ResembleTTSService.stop (st : ServiceState) : Except String ServiceState := do
  let st :=
    match st.websocket with
    | some ws => { st with websocket := some { ws with closed := true } }
    | none => st
  let s ← st.stream.stop_stream
  let s ← s.close
  pure { st with stream := s, pyaudio := { terminated := true } }

/-- How the inner receive loop of the standalone client `listen`
(src/tts-websocket/tts-websocket.py, lines 41–59) ended: `brk` on
`audio_end`, `exn` when `websocket.recv()` itself raised (that call is
outside the `try`, so the exception escapes `listen`), `pending` when the
script is exhausted. -/
inductive ListenExit where
  | brk : ListenExit
  | exn : ListenExit
  | pending : ListenExit
  deriving DecidableEq

/-- Output of the standalone client's receive loop: audio byte strings
written to the playback stream, the number of parse-failure lines printed by
the `except` handler, and how the loop ended. -/
structure ListenOut where
  writes : List (List Nat)
  logs : Nat
  exit : ListenExit
  deriving DecidableEq

/-- The inner receive loop of `listen`.  Everything after `recv` sits in a
`try` whose handler prints a line and continues, so a `json.loads` failure,
a missing `"type"` or `"audio_content"` key, and a base64 failure all log
and continue; there is no request-id filter and no `error` branch, so
messages of any other type produce nothing and the loop continues;
`audio_end` breaks. -/
def listenLoop : List RecvResult → ListenOut
  | [] => { writes := [], logs := 0, exit := .pending }
  | .connectionClosed :: _ => { writes := [], logs := 0, exit := .exn }
  | .otherError _ :: _ => { writes := [], logs := 0, exit := .exn }
  | .badJson _ :: rest =>
      let o := listenLoop rest
      { o with logs := o.logs + 1 }
  | .msg m :: rest =>
      match m.ty with
      | none =>
          let o := listenLoop rest
          { o with logs := o.logs + 1 }
      | some t =>
          if t = "audio" then
            match m.audio_content with
            | none =>
                let o := listenLoop rest
                { o with logs := o.logs + 1 }
            | some content =>
                match b64decode content with
                | none =>
                    let o := listenLoop rest
                    { o with logs := o.logs + 1 }
                | some audio =>
                    let o := listenLoop rest
                    { o with writes := audio :: o.writes }
          else if t = "audio_end" then
            { writes := [], logs := 0, exit := .brk }
          else listenLoop rest

/-- A frame is the `TTSStartedFrame`. -/
def Frame.isStarted : Frame → Bool
  | .TTSStartedFrame => true
  | _ => false

/-- Concrete service state as built by `__init__` with the repository's test
configuration. -/
def sampleState : ServiceState :=
  { api_key := "key", voice_uuid := "55592656", project_uuid := "ca6f4989"
    params := {}, websocket := none, request_id := 0
    stream := {}, pyaudio := {} }

theorem chunk_ne_started {f : Frame} (h : f.isChunk48k1 = true) :
    f ≠ Frame.TTSStartedFrame := by
  cases f <;> simp_all [Frame.isChunk48k1]

theorem chunk_not_terminal {f : Frame} (h : f.isChunk48k1 = true) :
    f.isTerminal = false := by
  cases f <;> simp_all [Frame.isChunk48k1, Frame.isTerminal]

theorem chunk_not_isStarted {f : Frame} (h : f.isChunk48k1 = true) :
    f.isStarted = false := by
  cases f <;> simp_all [Frame.isChunk48k1, Frame.isStarted]

theorem terminal_not_isStarted {f : Frame} (h : f.isTerminal = true) :
    f.isStarted = false := by
  cases f <;> simp_all [Frame.isTerminal, Frame.isStarted]

/-- Structure of the frames produced by the receive loop of `run_tts`: on a
`break` exit the frames are audio chunks followed by exactly one terminal
frame; on any other exit they are audio chunks only. -/
theorem runLoop_cases (rid : Int) (recvs : List RecvResult) :
    (∃ chunks t, (runLoop rid recvs).frames = chunks ++ [t] ∧ t.isTerminal = true ∧
        (∀ f ∈ chunks, f.isChunk48k1 = true) ∧ (runLoop rid recvs).exit = .brk)
    ∨ ((∀ f ∈ (runLoop rid recvs).frames, f.isChunk48k1 = true) ∧
        (runLoop rid recvs).exit ≠ .brk) := by
  induction recvs with
  | nil => right; simp [runLoop]
  | cons r rest ih =>
      cases r with
      | badJson d => right; simp [runLoop]
      | connectionClosed => right; simp [runLoop]
      | otherError d => right; simp [runLoop]
      | msg m =>
          by_cases hid : m.request_id = some rid
          · rcases hty : m.ty with _ | t
            · right; simp [runLoop, hid, hty]
            · by_cases ha : t = "audio"
              · rcases hac : m.audio_content with _ | content
                · right; simp [runLoop, hid, hty, ha, hac]
                · rcases hb : b64decode content with _ | audio
                  · right; simp [runLoop, hid, hty, ha, hac, hb]
                  · have hrec : runLoop rid (.msg m :: rest) =
                        { frames := Frame.TTSAudioRawFrame audio SAMPLE_RATE 1 ::
                            (runLoop rid rest).frames
                          writes := audio :: (runLoop rid rest).writes
                          exit := (runLoop rid rest).exit } := by
                      simp [runLoop, hid, hty, ha, hac, hb]
                    rw [hrec]
                    rcases ih with ⟨chunks, t', hf, ht', hch, hex⟩ | ⟨hall, hex⟩
                    · left
                      refine ⟨Frame.TTSAudioRawFrame audio SAMPLE_RATE 1 :: chunks, t',
                        by simp [hf], ht', ?_, hex⟩
                      intro f hf'
                      rcases List.mem_cons.mp hf' with h | h
                      · subst h; rfl
                      · exact hch f h
                    · right
                      refine ⟨?_, hex⟩
                      intro f hf'
                      rcases List.mem_cons.mp hf' with h | h
                      · subst h; rfl
                      · exact hall f h
              · by_cases he : t = "audio_end"
                · left
                  exact ⟨[], Frame.TTSStoppedFrame,
                    by simp [runLoop, hid, hty, ha, he], rfl, by simp,
                    by simp [runLoop, hid, hty, ha, he]⟩
                · by_cases her : t = "error"
                  · left
                    exact ⟨[], Frame.ErrorFrame
                        ("API Error: " ++ m.message.getD "Unknown error"),
                      by simp [runLoop, hid, hty, ha, he, her], rfl, by simp,
                      by simp [runLoop, hid, hty, ha, he, her]⟩
                  · have hrec : runLoop rid (.msg m :: rest) = runLoop rid rest := by
                      simp [runLoop, hid, hty, ha, he, her]
                    rw [hrec]; exact ih
          · have hrec : runLoop rid (.msg m :: rest) = runLoop rid rest := by
              simp [runLoop, hid]
            rw [hrec]; exact ih

/-- On a completed invocation with a working transport, the frames of
`run_tts` are `TTSStartedFrame`, then audio chunks, then exactly one
terminal frame. -/
theorem run_tts_shape (st : ServiceState) (text : String) (sc : Script)
    (hend : (run_tts st text sc).ended = true) (hok : sc.connSendOk = true) :
    ∃ chunks t, (run_tts st text sc).frames = (Frame.TTSStartedFrame :: chunks) ++ [t] ∧
      t.isTerminal = true ∧ ∀ f ∈ chunks, f.isChunk48k1 = true := by
  rcases hc : sc.connect with conn | d
  · rcases hs : sc.send with _ | _ | d
    · rcases runLoop_cases (st.request_id + 1) sc.recvs with
        ⟨chunks, t, hf, ht, hch, hex⟩ | ⟨hall, hex⟩
      · refine ⟨chunks, t, ?_, ht, hch⟩
        simp [run_tts, hc, hs, hex, hf]
      · rcases hx : (runLoop (st.request_id + 1) sc.recvs).exit with _ | _ | d' | _
        · exact absurd hx hex
        · refine ⟨(runLoop (st.request_id + 1) sc.recvs).frames,
            Frame.ErrorFrame "Connection closed unexpectedly", ?_, rfl, hall⟩
          simp [run_tts, hc, hs, hx]
        · refine ⟨(runLoop (st.request_id + 1) sc.recvs).frames,
            Frame.ErrorFrame d', ?_, rfl, hall⟩
          simp [run_tts, hc, hs, hx]
        · exact absurd hend (by simp [run_tts, hc, hs, hx])
    · simp [Script.connSendOk, hc, hs] at hok
    · simp [Script.connSendOk, hc, hs] at hok
  · simp [Script.connSendOk, hc] at hok

/-- Discarding is invariant: a message whose `request_id` does not match the
active id contributes nothing to the receive loop, wherever it occurs. -/
theorem runLoop_discard (rid : Int) (m : InboundMsg)
    (hm : ¬ m.request_id = some rid) (pre post : List RecvResult) :
    runLoop rid (pre ++ RecvResult.msg m :: post) = runLoop rid (pre ++ post) := by
  induction pre with
  | nil => simp [runLoop, hm]
  | cons r pre ih =>
      cases r with
      | badJson d => simp [runLoop]
      | connectionClosed => simp [runLoop]
      | otherError d => simp [runLoop]
      | msg m' =>
          by_cases hid : m'.request_id = some rid
          · rcases hty : m'.ty with _ | t
            · simp [runLoop, hid, hty]
            · by_cases ha : t = "audio"
              · rcases hac : m'.audio_content with _ | content
                · simp [runLoop, hid, hty, ha, hac]
                · rcases hb : b64decode content with _ | audio
                  · simp [runLoop, hid, hty, ha, hac, hb]
                  · simp [runLoop, hid, hty, ha, hac, hb, ih]
              · by_cases he : t = "audio_end"
                · simp [runLoop, hid, hty, ha, he]
                · by_cases her : t = "error"
                  · simp [runLoop, hid, hty, ha, he, her]
                  · simp [runLoop, hid, hty, ha, he, her, ih]
          · simp [runLoop, hid, ih]

/-- An inbound `audio` message carrying base64 `"AQID"` for active request
id `ridv`. -/
def msgAudio (ridv : Int) : InboundMsg :=
  { request_id := some ridv, ty := some "audio", audio_content := some "AQID"
    message := none }

/-- An inbound `audio_end` message for active request id `ridv`. -/
def msgEnd (ridv : Int) : InboundMsg :=
  { request_id := some ridv, ty := some "audio_end", audio_content := none
    message := none }

/-- An inbound `error` message for active request id `ridv`. -/
def msgError (ridv : Int) (err : String) : InboundMsg :=
  { request_id := some ridv, ty := some "error", audio_content := none
    message := some err }

/-- C1 (amended): on a completed invocation whose connection handshake and
request send succeed, the event sequence starts with exactly one
`TTSStartedFrame` (so `Started` precedes every `AudioChunk`), contains
exactly one terminal frame, and that terminal frame is the last element, so
no frames follow it; when the handshake raises, or the send raises
`ConnectionClosed`, the sequence is a single `ErrorFrame` with no
`TTSStartedFrame` at all. -/
theorem run_tts_event_sequence (st st2 st3 : ServiceState) (text text2 text3 : String)
    (sc : Script) (d : String) (sd : SendResult) (rs rs2 : List RecvResult) (conn : Nat)
    (hend : (run_tts st text sc).ended = true)
    (hok : sc.connSendOk = true) :
    (run_tts st text sc).frames.head? = some Frame.TTSStartedFrame ∧
    ((run_tts st text sc).frames.filter Frame.isStarted).length = 1 ∧
    ((run_tts st text sc).frames.filter Frame.isTerminal).length = 1 ∧
    ((run_tts st text sc).frames.getLast?.map Frame.isTerminal) = some true ∧
    (run_tts st2 text2 ⟨.error d, sd, rs⟩).frames = [Frame.ErrorFrame d] ∧
    (run_tts st3 text3 ⟨.ok conn, .connectionClosed, rs2⟩).frames =
      [Frame.ErrorFrame "Connection closed unexpectedly"] := by
  obtain ⟨chunks, t, hf, ht, hch⟩ := run_tts_shape st text sc hend hok
  have hchS : chunks.filter Frame.isStarted = [] :=
    List.filter_eq_nil_iff.mpr fun f hf' => by
      simp [chunk_not_isStarted (hch f hf')]
  have hchT : chunks.filter Frame.isTerminal = [] :=
    List.filter_eq_nil_iff.mpr fun f hf' => by
      simp [chunk_not_terminal (hch f hf')]
  refine ⟨?_, ?_, ?_, ?_, ?_, ?_⟩
  · rw [hf]; rfl
  · rw [hf]
    simp [List.filter_append, List.filter_cons, hchS,
      terminal_not_isStarted ht,
      show Frame.isStarted Frame.TTSStartedFrame = true from rfl]
  · rw [hf]
    simp [List.filter_append, List.filter_cons, hchT, ht,
      show Frame.isTerminal Frame.TTSStartedFrame = false from rfl]
  · rw [hf, List.getLast?_concat]
    simp [ht]
  · rfl
  · rfl

/-- C1 (counterexample to the claim as stated): when the websocket handshake
fails, the completed event sequence is a single `ErrorFrame`, so it does not
start with a `TTSStartedFrame`. -/
theorem run_tts_event_sequence_cex :
    (run_tts sampleState "hello" ⟨.error "handshake failed", .ok, []⟩).frames =
      [Frame.ErrorFrame "handshake failed"] ∧
    (run_tts sampleState "hello" ⟨.error "handshake failed", .ok, []⟩).frames.head? ≠
      some Frame.TTSStartedFrame ∧
    (run_tts sampleState "hello" ⟨.error "handshake failed", .ok, []⟩).ended = true := by
  refine ⟨rfl, ?_, rfl⟩
  simp [run_tts]

/-- C1 witness: scenario B (two audio chunks then `audio_end`) satisfies the
hypotheses of `run_tts_event_sequence`. -/
theorem run_tts_event_sequence_witness :
    (run_tts sampleState "hello"
        ⟨.ok 1, .ok, [.msg (msgAudio 1), .msg (msgAudio 1), .msg (msgEnd 1)]⟩).frames.head? =
      some Frame.TTSStartedFrame ∧
    ((run_tts sampleState "hello"
        ⟨.ok 1, .ok, [.msg (msgAudio 1), .msg (msgAudio 1), .msg (msgEnd 1)]⟩).frames.filter
        Frame.isStarted).length = 1 ∧
    ((run_tts sampleState "hello"
        ⟨.ok 1, .ok, [.msg (msgAudio 1), .msg (msgAudio 1), .msg (msgEnd 1)]⟩).frames.filter
        Frame.isTerminal).length = 1 ∧
    ((run_tts sampleState "hello"
        ⟨.ok 1, .ok, [.msg (msgAudio 1), .msg (msgAudio 1), .msg (msgEnd 1)]⟩).frames.getLast?.map
        Frame.isTerminal) = some true ∧
    (run_tts sampleState "x" ⟨.error "boom", .ok, []⟩).frames = [Frame.ErrorFrame "boom"] ∧
    (run_tts sampleState "y" ⟨.ok 3, .connectionClosed, []⟩).frames =
      [Frame.ErrorFrame "Connection closed unexpectedly"] :=
  run_tts_event_sequence sampleState sampleState sampleState "hello" "x" "y"
    ⟨.ok 1, .ok, [.msg (msgAudio 1), .msg (msgAudio 1), .msg (msgEnd 1)]⟩
    "boom" .ok [] [] 3 (by decide) (by decide)

/-- C2: a parsed inbound message whose `request_id` differs from the active
request's id (which is `st.request_id + 1` for this invocation) produces
zero observable events: removing it from the transport script leaves every
observable of `run_tts` — frames, playback writes, sent requests, opened
connections, final state and completion — unchanged. -/
theorem run_tts_discard_stale (st : ServiceState) (text : String)
    (c : ConnectResult) (sd : SendResult) (pre post : List RecvResult)
    (m : InboundMsg) (hm : ¬ m.request_id = some (st.request_id + 1)) :
    run_tts st text ⟨c, sd, pre ++ RecvResult.msg m :: post⟩ =
      run_tts st text ⟨c, sd, pre ++ post⟩ := by
  rcases c with conn | d
  · rcases sd with _ | _ | d
    · simp [run_tts, runLoop_discard (st.request_id + 1) m hm]
    · rfl
    · rfl
  · rfl

/-- A stale message: an `audio` message tagged with request id 99 while the
active request id is 1. -/
def staleMsg : InboundMsg := msgAudio 99

/-- C2 witness: dropping a stale audio message from a concrete script leaves
the run unchanged. -/
theorem run_tts_discard_stale_witness :
    run_tts sampleState "hello"
        ⟨.ok 1, .ok, [RecvResult.msg (msgAudio 1)] ++
          RecvResult.msg staleMsg :: [RecvResult.msg (msgEnd 1)]⟩ =
      run_tts sampleState "hello"
        ⟨.ok 1, .ok, [RecvResult.msg (msgAudio 1)] ++ [RecvResult.msg (msgEnd 1)]⟩ :=
  run_tts_discard_stale sampleState "hello" (.ok 1) .ok
    [RecvResult.msg (msgAudio 1)] [RecvResult.msg (msgEnd 1)] staleMsg (by decide)

/-- C3: for an inbound `audio` message whose `request_id` matches the active
id, the payload of the emitted `TTSAudioRawFrame` is byte-for-byte the
base64 decoding of the message's `audio_content` field, and the same bytes
are what gets written to the playback stream. -/
theorem run_tts_audio_roundtrip (st : ServiceState) (text : String) (conn : Nat)
    (content : String) (bs : List Nat) (mm : Option String) (rest : List RecvResult)
    (hb : b64decode content = some bs) :
    (run_tts st text ⟨.ok conn, .ok,
        RecvResult.msg ⟨some (st.request_id + 1), some "audio", some content, mm⟩ ::
          rest⟩).frames.head? = some Frame.TTSStartedFrame ∧
    (run_tts st text ⟨.ok conn, .ok,
        RecvResult.msg ⟨some (st.request_id + 1), some "audio", some content, mm⟩ ::
          rest⟩).frames.tail.head? =
      some (Frame.TTSAudioRawFrame bs SAMPLE_RATE 1) ∧
    (run_tts st text ⟨.ok conn, .ok,
        RecvResult.msg ⟨some (st.request_id + 1), some "audio", some content, mm⟩ ::
          rest⟩).writes.head? = some bs := by
  have hrec : runLoop (st.request_id + 1)
      (RecvResult.msg ⟨some (st.request_id + 1), some "audio", some content, mm⟩ :: rest) =
      { frames := Frame.TTSAudioRawFrame bs SAMPLE_RATE 1 ::
          (runLoop (st.request_id + 1) rest).frames
        writes := bs :: (runLoop (st.request_id + 1) rest).writes
        exit := (runLoop (st.request_id + 1) rest).exit } := by
    simp [runLoop, hb]
  rcases hx : (runLoop (st.request_id + 1) rest).exit with _ | _ | d | _ <;>
    simp [run_tts, hrec, hx]

/-- C3 witness: base64 `"AQID"` decodes to the bytes 1, 2, 3 and those are
exactly the bytes of the emitted audio frame. -/
theorem run_tts_audio_roundtrip_witness :
    (run_tts sampleState "hello" ⟨.ok 1, .ok,
        RecvResult.msg ⟨some (sampleState.request_id + 1), some "audio", some "AQID", none⟩ ::
          [RecvResult.msg (msgEnd 1)]⟩).frames.head? = some Frame.TTSStartedFrame ∧
    (run_tts sampleState "hello" ⟨.ok 1, .ok,
        RecvResult.msg ⟨some (sampleState.request_id + 1), some "audio", some "AQID", none⟩ ::
          [RecvResult.msg (msgEnd 1)]⟩).frames.tail.head? =
      some (Frame.TTSAudioRawFrame [1, 2, 3] SAMPLE_RATE 1) ∧
    (run_tts sampleState "hello" ⟨.ok 1, .ok,
        RecvResult.msg ⟨some (sampleState.request_id + 1), some "audio", some "AQID", none⟩ ::
          [RecvResult.msg (msgEnd 1)]⟩).writes.head? = some [1, 2, 3] :=
  run_tts_audio_roundtrip sampleState "hello" 1 "AQID" [1, 2, 3] none
    [RecvResult.msg (msgEnd 1)] (by decide)

/-- C4 (amended): an `error` message with matching `request_id` terminates
the loop with a single terminal `ErrorFrame` whose text is the remote
message — or `"Unknown error"` when the `message` field is absent —
prefixed with `"API Error: "`. -/
theorem run_tts_error_message (st st2 : ServiceState) (text text2 : String)
    (conn conn2 : Nat) (em : String) (ac ac2 : Option String)
    (rest rest2 : List RecvResult) :
    (run_tts st text ⟨.ok conn, .ok,
        RecvResult.msg ⟨some (st.request_id + 1), some "error", ac, some em⟩ ::
          rest⟩).frames =
      [Frame.TTSStartedFrame, Frame.ErrorFrame ("API Error: " ++ em)] ∧
    (run_tts st text ⟨.ok conn, .ok,
        RecvResult.msg ⟨some (st.request_id + 1), some "error", ac, some em⟩ ::
          rest⟩).ended = true ∧
    (run_tts st2 text2 ⟨.ok conn2, .ok,
        RecvResult.msg ⟨some (st2.request_id + 1), some "error", ac2, none⟩ ::
          rest2⟩).frames =
      [Frame.TTSStartedFrame, Frame.ErrorFrame "API Error: Unknown error"] ∧
    (run_tts st2 text2 ⟨.ok conn2, .ok,
        RecvResult.msg ⟨some (st2.request_id + 1), some "error", ac2, none⟩ ::
          rest2⟩).ended = true := by
  have hrec : runLoop (st.request_id + 1)
      (RecvResult.msg ⟨some (st.request_id + 1), some "error", ac, some em⟩ :: rest) =
      { frames := [Frame.ErrorFrame ("API Error: " ++ em)], writes := []
        exit := .brk } := by
    simp [runLoop]
  have hrec2 : runLoop (st2.request_id + 1)
      (RecvResult.msg ⟨some (st2.request_id + 1), some "error", ac2, none⟩ :: rest2) =
      { frames := [Frame.ErrorFrame "API Error: Unknown error"], writes := []
        exit := .brk } := by
    simp [runLoop]
  refine ⟨?_, ?_, ?_, ?_⟩ <;> simp [run_tts, hrec, hrec2]

/-- C4 (counterexample to the claim as stated): for the remote message
`"quota exceeded"` the session yields
`[Started, Failed("API Error: quota exceeded")]`, not
`[Started, Failed("quota exceeded")]`: the emitted text is not exactly the
remote message. -/
theorem run_tts_error_message_cex :
    (run_tts sampleState "hello" ⟨.ok 1, .ok,
        [RecvResult.msg (msgError 1 "quota exceeded")]⟩).frames =
      [Frame.TTSStartedFrame, Frame.ErrorFrame "API Error: quota exceeded"] ∧
    (run_tts sampleState "hello" ⟨.ok 1, .ok,
        [RecvResult.msg (msgError 1 "quota exceeded")]⟩).frames ≠
      [Frame.TTSStartedFrame, Frame.ErrorFrame "quota exceeded"] := by
  constructor
  · rfl
  · decide

/-- C5: whenever a `run_tts` invocation runs to completion — success via
`audio_end`, a server `error` message, connection loss or any other
exception — the `finally` block has reset the request sequence counter to
zero. -/
theorem run_tts_resets_counter (st : ServiceState) (text : String) (sc : Script)
    (hend : (run_tts st text sc).ended = true) :
    (run_tts st text sc).state.request_id = 0 := by
  rcases hc : sc.connect with conn | d
  · rcases hs : sc.send with _ | _ | d
    · rcases hx : (runLoop (st.request_id + 1) sc.recvs).exit with _ | _ | d' | _ <;>
        simp_all [run_tts, hc, hs, hx]
    · simp [run_tts, hc, hs]
    · simp [run_tts, hc, hs]
  · simp [run_tts, hc]

/-- C5 witness: after the success scenario (immediate `audio_end`) the
counter is zero. -/
theorem run_tts_resets_counter_witness :
    (run_tts sampleState "hello" ⟨.ok 1, .ok, [RecvResult.msg (msgEnd 1)]⟩).state.request_id = 0 :=
  run_tts_resets_counter sampleState "hello" ⟨.ok 1, .ok, [RecvResult.msg (msgEnd 1)]⟩
    (by decide)

/-- The state a first successful `stop` call leaves behind: the websocket
(if any) closed, the playback stream stopped and closed, pyaudio
terminated. -/
def closedState (st : ServiceState) : ServiceState :=
  { st with websocket := st.websocket.map fun ws => { ws with closed := true }
            stream := { stopped := true, closed := true }
            pyaudio := { terminated := true } }

/-- C6 (amended): a first call to `stop` on a state whose playback stream is
still open succeeds and releases everything — websocket closed, stream
stopped and closed, pyaudio terminated — but a second call raises
`IOError("Stream closed")` from `stop_stream` on the already-closed stream,
so `stop` is not idempotent. -/
theorem stop_releases_once_then_raises (st : ServiceState)
    (h : st.stream.closed = false) :
    ResembleTTSService.stop st = Except.ok (closedState st) ∧
    (closedState st).stream.closed = true ∧
    (closedState st).pyaudio.terminated = true ∧
    ResembleTTSService.stop (closedState st) = Except.error "Stream closed" := by
  obtain ⟨ak, vu, pu, pa, ws, rid, ⟨sstop, sclosed⟩, pya⟩ := st
  cases sclosed
  · rcases ws with _ | ws <;> exact ⟨rfl, rfl, rfl, rfl⟩
  · simp [AudioStream.closed] at h

/-- C6 (counterexample to the claim as stated): calling `stop` twice on a
fresh service fails on the second call, and even the first call before any
synthesis is not a no-op (the playback stream is closed by it). -/
theorem stop_not_idempotent_cex :
    ResembleTTSService.stop sampleState = Except.ok (closedState sampleState) ∧
    closedState sampleState ≠ sampleState ∧
    ResembleTTSService.stop (closedState sampleState) =
      Except.error "Stream closed" := by
  refine ⟨rfl, by decide, rfl⟩

/-- C6 witness: the amended statement holds at the fresh service state. -/
theorem stop_releases_once_then_raises_witness :
    ResembleTTSService.stop sampleState = Except.ok (closedState sampleState) ∧
    (closedState sampleState).stream.closed = true ∧
    (closedState sampleState).pyaudio.terminated = true ∧
    ResembleTTSService.stop (closedState sampleState) =
      Except.error "Stream closed" :=
  stop_releases_once_then_raises sampleState (by decide)

/-- C7 (amended): the two files handle a malformed inbound message
differently.  In `run_tts` the `json.loads` failure escapes the loop, is
caught by the outer handler, and aborts the attempt with one terminal
`ErrorFrame`; in the standalone client's `listen` loop the failure is
caught inside the loop, one line is logged, and the loop continues with the
same writes and the same outcome as if the message had not arrived. -/
theorem malformed_message_policies (st : ServiceState) (text : String) (conn : Nat)
    (d d2 : String) (rest rest2 : List RecvResult) :
    (run_tts st text ⟨.ok conn, .ok, RecvResult.badJson d :: rest⟩).frames =
      [Frame.TTSStartedFrame, Frame.ErrorFrame d] ∧
    (run_tts st text ⟨.ok conn, .ok, RecvResult.badJson d :: rest⟩).ended = true ∧
    (listenLoop (RecvResult.badJson d2 :: rest2)).writes = (listenLoop rest2).writes ∧
    (listenLoop (RecvResult.badJson d2 :: rest2)).exit = (listenLoop rest2).exit ∧
    (listenLoop (RecvResult.badJson d2 :: rest2)).logs = (listenLoop rest2).logs + 1 := by
  have hrec : runLoop (st.request_id + 1) (RecvResult.badJson d :: rest) =
      { frames := [], writes := [], exit := .exnOther d } := by simp [runLoop]
  refine ⟨?_, ?_, ?_, ?_, ?_⟩ <;> simp [run_tts, hrec, listenLoop]

/-- C7 (counterexample to the claim as stated): in `run_tts` a malformed
message does produce a terminal event and does abort the attempt — the
`audio_end` that follows it is never processed. -/
theorem malformed_aborts_cex :
    (run_tts sampleState "hi" ⟨.ok 1, .ok,
        [RecvResult.badJson "Expecting value: line 1 column 1 (char 0)",
         RecvResult.msg (msgEnd 1)]⟩).frames =
      [Frame.TTSStartedFrame,
       Frame.ErrorFrame "Expecting value: line 1 column 1 (char 0)"] ∧
    (run_tts sampleState "hi" ⟨.ok 1, .ok,
        [RecvResult.badJson "Expecting value: line 1 column 1 (char 0)",
         RecvResult.msg (msgEnd 1)]⟩).ended = true :=
  ⟨rfl, rfl⟩

/-- C8 (amended): a failed handshake yields exactly the one `ErrorFrame`
carrying the exception text and the sequence ends with no retry; a
`ConnectionClosed` raised by `recv` mid-stream yields the fixed description
`"Connection closed unexpectedly"` (capital C) and ends the sequence. -/
theorem run_tts_connection_loss (st st2 : ServiceState) (text text2 : String)
    (conn : Nat) (d : String) (sd : SendResult) (rs rest : List RecvResult) :
    (run_tts st text ⟨.error d, sd, rs⟩).frames = [Frame.ErrorFrame d] ∧
    (run_tts st text ⟨.error d, sd, rs⟩).ended = true ∧
    (run_tts st2 text2 ⟨.ok conn, .ok, RecvResult.connectionClosed :: rest⟩).frames =
      [Frame.TTSStartedFrame, Frame.ErrorFrame "Connection closed unexpectedly"] ∧
    (run_tts st2 text2 ⟨.ok conn, .ok, RecvResult.connectionClosed :: rest⟩).ended =
      true := by
  have hrec : runLoop (st2.request_id + 1) (RecvResult.connectionClosed :: rest) =
      { frames := [], writes := [], exit := .exnConnClosed } := by simp [runLoop]
  refine ⟨rfl, rfl, ?_, ?_⟩ <;> simp [run_tts, hrec]

/-- C8 (counterexample to the claim as stated): in scenario D the terminal
frame carries `"Connection closed unexpectedly"`, which is not the
lower-case description `"connection closed unexpectedly"` the claim
states. -/
theorem run_tts_connection_loss_cex :
    (run_tts sampleState "hello" ⟨.ok 1, .ok,
        [RecvResult.msg (msgAudio 1), RecvResult.connectionClosed]⟩).frames =
      [Frame.TTSStartedFrame, Frame.TTSAudioRawFrame [1, 2, 3] 48000 1,
       Frame.ErrorFrame "Connection closed unexpectedly"] ∧
    (run_tts sampleState "hello" ⟨.ok 1, .ok,
        [RecvResult.msg (msgAudio 1), RecvResult.connectionClosed]⟩).frames ≠
      [Frame.TTSStartedFrame, Frame.TTSAudioRawFrame [1, 2, 3] 48000 1,
       Frame.ErrorFrame "connection closed unexpectedly"] := by
  refine ⟨rfl, by decide⟩

/-- C9 (amended): an invocation whose handshake succeeds always opens
exactly one new connection — even when one is already open, the old one is
abandoned, not reused — stores it unclosed in the state (the connection is
not torn down when the sequence ends), and, when the send succeeds,
transmits exactly one `SynthesisRequest` carrying the incremented sequence
id `st.request_id + 1`; a failed handshake opens nothing, sends nothing and
leaves the stored websocket unchanged. -/
theorem run_tts_connection_behavior (st st2 : ServiceState) (text text2 : String)
    (conn : Nat) (d : String) (sd : SendResult) (rs rs2 : List RecvResult) :
    (run_tts st text ⟨.ok conn, .ok, rs⟩).opened = [conn] ∧
    (run_tts st text ⟨.ok conn, .ok, rs⟩).sent =
      [buildRequest st text (st.request_id + 1)] ∧
    (run_tts st text ⟨.ok conn, .ok, rs⟩).state.websocket = some ⟨conn, false⟩ ∧
    (run_tts st2 text2 ⟨.error d, sd, rs2⟩).opened = [] ∧
    (run_tts st2 text2 ⟨.error d, sd, rs2⟩).sent = [] ∧
    (run_tts st2 text2 ⟨.error d, sd, rs2⟩).state.websocket = st2.websocket := by
  rcases hx : (runLoop (st.request_id + 1) rs).exit with _ | _ | d' | _ <;>
    simp [run_tts, hx]

/-- C9 (counterexample to the claim as stated): with a connection already
open, `run_tts` still opens a new one and overwrites the stored websocket,
so an existing open connection is not reused. -/
theorem run_tts_no_reuse_cex :
    ({ sampleState with websocket := some ⟨5, false⟩ } : ServiceState).websocket =
      some ⟨5, false⟩ ∧
    (run_tts { sampleState with websocket := some ⟨5, false⟩ } "hi"
        ⟨.ok 7, .ok, [RecvResult.msg (msgEnd 1)]⟩).opened = [7] ∧
    (run_tts { sampleState with websocket := some ⟨5, false⟩ } "hi"
        ⟨.ok 7, .ok, [RecvResult.msg (msgEnd 1)]⟩).state.websocket =
      some ⟨7, false⟩ :=
  ⟨rfl, rfl, rfl⟩

/-- Every audio frame produced by the receive loop carries sample rate
48000 and one channel. -/
theorem runLoop_chunk_format (rid : Int) (recvs : List RecvResult)
    (a : List Nat) (sr ch : Nat)
    (h : Frame.TTSAudioRawFrame a sr ch ∈ (runLoop rid recvs).frames) :
    sr = 48000 ∧ ch = 1 := by
  rcases runLoop_cases rid recvs with ⟨chunks, t, hf, ht, hch, _⟩ | ⟨hall, _⟩
  · rw [hf] at h
    rcases List.mem_append.mp h with h | h
    · have := hch _ h
      simp [Frame.isChunk48k1] at this
      exact this
    · rw [← List.mem_singleton.mp h] at ht
      simp [Frame.isTerminal] at ht
  · have := hall _ h
    simp [Frame.isChunk48k1] at this
    exact this

/-- C10: every `TTSAudioRawFrame` yielded by `run_tts` carries the fixed
sample rate 48000 and channel count 1, whatever the inbound message
contained — neither value is read from the message. -/
theorem run_tts_chunk_format (st : ServiceState) (text : String) (sc : Script)
    (a : List Nat) (sr ch : Nat)
    (h : Frame.TTSAudioRawFrame a sr ch ∈ (run_tts st text sc).frames) :
    sr = 48000 ∧ ch = 1 := by
  rcases hc : sc.connect with conn | d
  · rcases hs : sc.send with _ | _ | d
    · rcases hx : (runLoop (st.request_id + 1) sc.recvs).exit with _ | _ | d' | _ <;>
        simp [run_tts, hc, hs, hx] at h <;>
        exact runLoop_chunk_format _ _ _ _ _ h
    · simp [run_tts, hc, hs] at h
    · simp [run_tts, hc, hs] at h
  · simp [run_tts, hc] at h

/-- C10 witness: the concrete audio chunk of scenario B is indeed a member
of the produced frames and carries 48000 Hz, one channel. -/
theorem run_tts_chunk_format_witness :
    Frame.TTSAudioRawFrame [1, 2, 3] 48000 1 ∈
      (run_tts sampleState "hello"
        ⟨.ok 1, .ok, [RecvResult.msg (msgAudio 1), RecvResult.msg (msgEnd 1)]⟩).frames ∧
    (48000 = 48000 ∧ 1 = 1) := by
  have hm : Frame.TTSAudioRawFrame [1, 2, 3] 48000 1 ∈
      (run_tts sampleState "hello"
        ⟨.ok 1, .ok, [RecvResult.msg (msgAudio 1), RecvResult.msg (msgEnd 1)]⟩).frames := by
    show Frame.TTSAudioRawFrame [1, 2, 3] 48000 1 ∈
      [Frame.TTSStartedFrame, Frame.TTSAudioRawFrame [1, 2, 3] 48000 1,
       Frame.TTSStoppedFrame]
    exact List.Mem.tail _ (List.Mem.head _)
  exact ⟨hm, run_tts_chunk_format sampleState "hello"
    ⟨.ok 1, .ok, [RecvResult.msg (msgAudio 1), RecvResult.msg (msgEnd 1)]⟩
    [1, 2, 3] 48000 1 hm⟩
